import Mathlib

/-!
Verification of the `pose_detection` Flutter plugin (Linux platform file,
`src/linux/pose_detection_plugin.cc`) against its natural-language
specification.  The C code is shallowly embedded: the `utsname` structure,
the outcome of the `uname(2)` call, the Flutter method-call values and
responses, and the plugin's dispatch and registration functions become
plain Lean definitions, and the specified properties become theorems
about those definitions.
-/

/-- Model of `struct utsname` (from `<sys/utsname.h>`): the five POSIX
fields, each a NUL-terminated character array modelled as a `String`. -/
structure Utsname where
  sysname : String
  nodename : String
  release : String
  version : String
  machine : String
deriving DecidableEq, Repr

/-- The zero-initialised `utsname` value: `struct utsname uname_data = {};`
in the C source fills every field with zero bytes, i.e. every string field
reads back as the empty string. -/
def zeroUtsname : Utsname :=
  { sysname := "", nodename := "", release := "", version := "", machine := "" }

/-- Outcome of the `uname(&uname_data)` call: on success the kernel fills
the structure; on failure (return value `-1`) it leaves the buffer as it
was, here the zero-initialised structure.  The C code ignores the return
value either way. -/
inductive UnameOutcome where
  | ok (u : Utsname)
  | fail
deriving DecidableEq, Repr

/-- The contents of `uname_data` after `uname(&uname_data)` returns,
given the call's outcome.  On failure the zero-initialised buffer is
unchanged. -/
def unameResult : UnameOutcome → Utsname
  | .ok u => u
  | .fail => zeroUtsname

/-- Minimal model of `FlValue`, the dynamically typed value carried as a
method call's arguments.  Only the shapes the claims exercise are needed;
the plugin never reads the arguments. -/
inductive FlValue where
  | null
  | boolean (b : Bool)
  | integer (i : Int)
  | str (s : String)
deriving DecidableEq, Repr

/-- Model of `FlMethodResponse`: the plugin constructs either
`fl_method_success_response_new(result)` with a string payload, or
`fl_method_not_implemented_response_new()`. -/
inductive FlMethodResponse where
  | success (payload : FlValue)
  | notImplemented
deriving DecidableEq, Repr

/-- Model of `FlMethodCall`: a method name (`fl_method_call_get_name`)
and arguments (`fl_method_call_get_args`).  The plugin only ever reads
the name. -/
structure FlMethodCall where
  name : String
  args : FlValue
deriving DecidableEq, Repr

/-- Model of `struct _PoseDetectionPlugin`: it holds only the GObject
`parent_instance` header and no data of its own. -/
structure PoseDetectionPlugin where
  parent_instance : Unit
deriving DecidableEq, Repr

/-- The string built by `g_strdup_printf("Linux %s", uname_data.version)`:
the literal `"Linux "` followed by the `version` field of the (possibly
zero-initialised) `utsname` buffer. -/
def version_string (out : UnameOutcome) : String :=
  "Linux " ++ (unameResult out).version

/-- Embedding of `get_platform_version()`: zero-initialise `uname_data`,
call `uname` (return value ignored; `out` is the call's outcome), format
`"Linux %s"` with `uname_data.version`, wrap it in a success response.
There is no failure branch: every path returns a success response. -/
def get_platform_version (out : UnameOutcome) : FlMethodResponse :=
  FlMethodResponse.success (FlValue.str (version_string out))

/-- Embedding of `pose_detection_plugin_handle_method_call`: compare the
call's name with `"getPlatformVersion"` (via `strcmp`, i.e. exact
case-sensitive equality); on a match delegate to `get_platform_version`,
otherwise build a not-implemented response.  The plugin object is
returned unchanged alongside the response handed to
`fl_method_call_respond`, making the (absent) state update explicit. -/
def pose_detection_plugin_handle_method_call
    (self : PoseDetectionPlugin) (out : UnameOutcome)
    (method_call : FlMethodCall) : FlMethodResponse × PoseDetectionPlugin :=
  let response :=
    if method_call.name = "getPlatformVersion" then
      get_platform_version out
    else
      FlMethodResponse.notImplemented
  (response, self)

/-- Embedding of `method_call_cb`: the channel callback unwraps the
user-data pointer back to the plugin object and forwards to
`pose_detection_plugin_handle_method_call`. -/
def method_call_cb (user_data : PoseDetectionPlugin) (out : UnameOutcome)
    (method_call : FlMethodCall) : FlMethodResponse × PoseDetectionPlugin :=
  pose_detection_plugin_handle_method_call user_data out method_call

/-- The observable result of `pose_detection_plugin_register_with_registrar`:
the name of the method channel it creates and the handler it installs on
that channel. -/
structure ChannelRegistration where
  channelName : String
  handler : PoseDetectionPlugin → UnameOutcome → FlMethodCall →
    FlMethodResponse × PoseDetectionPlugin

/-- Embedding of `pose_detection_plugin_register_with_registrar`: a new
plugin object is created, a method channel named `"pose_detection"` is
created on the registrar's messenger with the standard codec, and
`method_call_cb` is installed as its method-call handler. -/
def pose_detection_plugin_register_with_registrar : ChannelRegistration :=
  { channelName := "pose_detection"
    handler := method_call_cb }

/-- Two successive invocations of the handler within one process run,
with the OS identification data fixed: the state returned by the first
call is threaded into the second, and both responses are collected. -/
def two_successive_calls (self : PoseDetectionPlugin) (out : UnameOutcome)
    (method_call : FlMethodCall) : FlMethodResponse × FlMethodResponse :=
  let first := pose_detection_plugin_handle_method_call self out method_call
  let second := pose_detection_plugin_handle_method_call first.2 out method_call
  (first.1, second.1)

/-- The first whitespace-separated token of a string: drop leading
whitespace, then take characters up to the next whitespace. -/
def firstToken (s : String) : String :=
  String.mk ((s.data.dropWhile Char.isWhitespace).takeWhile
    (fun c => !c.isWhitespace))

/-- Helper: a string starting with the literal `"Linux "` is never empty. -/
lemma linux_append_ne_empty (v : String) : "Linux " ++ v ≠ "" := by
  intro h
  have h2 : ("Linux " ++ v).data = ([] : List Char) := congrArg String.data h
  have h3 : ('L' :: 'i' :: 'n' :: 'u' :: 'x' :: ' ' :: v.data) = ([] : List Char) := h2
  exact List.cons_ne_nil _ _ h3

/-- Helper: the first whitespace-separated token of `"Linux " ++ v` is
`"Linux"`, whatever `v` is. -/
lemma firstToken_linux (v : String) : firstToken ("Linux " ++ v) = "Linux" := rfl

/-- C1: for every method call whose name is exactly `"getPlatformVersion"`,
regardless of arguments and of the uname outcome, dispatch returns a
success response whose payload is a non-empty string. -/
theorem dispatch_getPlatformVersion_success_nonempty
    (self : PoseDetectionPlugin) (out : UnameOutcome) (args : FlValue) :
    ∃ s : String,
      (pose_detection_plugin_handle_method_call self out
        { name := "getPlatformVersion", args := args }).1 =
        FlMethodResponse.success (FlValue.str s) ∧ s ≠ "" :=
  ⟨version_string out, rfl, linux_append_ne_empty _⟩

/-- C2: dispatch returns a not-implemented response exactly when the
method name differs from `"getPlatformVersion"` (case-sensitively). -/
theorem dispatch_notImplemented_iff
    (self : PoseDetectionPlugin) (out : UnameOutcome)
    (method_call : FlMethodCall) :
    (pose_detection_plugin_handle_method_call self out method_call).1 =
      FlMethodResponse.notImplemented ↔
      method_call.name ≠ "getPlatformVersion" := by
  by_cases h : method_call.name = "getPlatformVersion" <;>
    simp [pose_detection_plugin_handle_method_call, get_platform_version, h]

/-- C3 counterexample: on a host whose uname reports release
`"5.15.0-generic"` and version `"#1 SMP PREEMPT"`, the success payload is
not `"<OS-name> <release>"`: the code formats the `version` field, not
the `release` field. -/
theorem get_platform_version_release_counterexample :
    get_platform_version (UnameOutcome.ok
      { sysname := "Linux", nodename := "host", release := "5.15.0-generic",
        version := "#1 SMP PREEMPT", machine := "x86_64" }) ≠
      FlMethodResponse.success (FlValue.str ("Linux" ++ " " ++ "5.15.0-generic")) := by
  decide

/-- C3 amended: the success payload is the literal `"Linux"`, a single
space, and the `version` field of the utsname structure (the OS name is
hardcoded and the `release` field is never read). -/
theorem get_platform_version_payload_format (out : UnameOutcome) :
    get_platform_version out =
      FlMethodResponse.success
        (FlValue.str ("Linux" ++ " " ++ (unameResult out).version)) := rfl

/-- C4 counterexample: when the underlying `uname` call fails, the result
is still a Success response — its payload is `"Linux "` built from the
zero-initialised structure; no distinct error is surfaced. -/
theorem uname_failure_success_counterexample :
    get_platform_version UnameOutcome.fail =
      FlMethodResponse.success (FlValue.str "Linux ") := by
  decide

/-- C4 amended: for the failing outcome of the OS call,
`get_platform_version` returns a Success response whose payload is
`"Linux "` followed by the zero-initialised (empty) version field; it
neither crashes nor reports an error. -/
theorem uname_failure_still_success :
    get_platform_version UnameOutcome.fail =
      FlMethodResponse.success
        (FlValue.str ("Linux " ++ zeroUtsname.version)) ∧
      version_string UnameOutcome.fail ≠ "" :=
  ⟨rfl, linux_append_ne_empty _⟩

/-- C5: with the OS identification data fixed, two successive invocations
of the handler within the same process run yield identical responses. -/
theorem repeated_calls_identical (self : PoseDetectionPlugin)
    (out : UnameOutcome) (method_call : FlMethodCall) :
    (two_successive_calls self out method_call).1 =
      (two_successive_calls self out method_call).2 := rfl

/-- C6 counterexample: for the OS identification state left by a failed
`uname` call (all fields empty), the first whitespace-separated token of
the returned version string is `"Linux"`, which is not the state's
`sysname`; the token is hardcoded, not read from the host. -/
theorem firstToken_not_sysname_counterexample :
    firstToken (version_string UnameOutcome.fail) ≠
      (unameResult UnameOutcome.fail).sysname := by
  decide

/-- C6 amended: for every OS identification state, the first
whitespace-separated token of the success payload is the literal
`"Linux"` (which coincides with the host OS name exactly when the state's
`sysname` is `"Linux"`, as on a working Linux host). -/
theorem firstToken_always_linux (out : UnameOutcome) :
    get_platform_version out =
      FlMethodResponse.success (FlValue.str (version_string out)) ∧
      firstToken (version_string out) = "Linux" :=
  ⟨rfl, firstToken_linux _⟩

/-- C7: the dispatch result depends only on the method name — for any two
argument values, the handler produces the same response and state. -/
theorem dispatch_ignores_arguments (self : PoseDetectionPlugin)
    (out : UnameOutcome) (name : String) (args₁ args₂ : FlValue) :
    pose_detection_plugin_handle_method_call self out
      { name := name, args := args₁ } =
    pose_detection_plugin_handle_method_call self out
      { name := name, args := args₂ } := rfl

/-- C8: the handler (and the channel callback wrapping it) returns the
plugin state unchanged on every call: the service writes no process
state. -/
theorem dispatch_preserves_state (self : PoseDetectionPlugin)
    (out : UnameOutcome) (method_call : FlMethodCall) :
    (pose_detection_plugin_handle_method_call self out method_call).2 = self ∧
    (method_call_cb self out method_call).2 = self :=
  ⟨rfl, rfl⟩

/-- C9: registration creates a method channel named exactly
`"pose_detection"` and installs the method-call callback as its
handler. -/
theorem registration_channel_name :
    pose_detection_plugin_register_with_registrar.channelName =
      "pose_detection" ∧
    pose_detection_plugin_register_with_registrar.handler = method_call_cb :=
  ⟨rfl, rfl⟩

/-- C10: `get_platform_version` is total over every outcome of the uname
call — it always returns a Success response whose payload begins with
`"Linux "` and is therefore non-empty; no failure branch exists. -/
theorem get_platform_version_total_success (out : UnameOutcome) :
    get_platform_version out =
      FlMethodResponse.success (FlValue.str (version_string out)) ∧
    (∃ rest : String, version_string out = "Linux " ++ rest) ∧
    version_string out ≠ "" :=
  ⟨rfl, ⟨(unameResult out).version, rfl⟩, linux_append_ne_empty _⟩
